import Mathlib

/-!
Shallow embedding of the JinStore backend (`src/index.js`): an Express
application with two mongoose collections (products, cart), a multer upload
stage on product creation, and four HTTP routes.  The mutable MongoDB state is
modelled as an explicit `DB` value threaded through the handlers; `Date.now`
is an explicit `now : Nat` parameter; JavaScript numbers produced by
`parseFloat` are modelled as `JsNum` (NaN, a finite rational, or ±Infinity).
-/

/-- JavaScript number values relevant to this program: `NaN`, a finite value
(modelled as a rational), or `±Infinity` (`inf true` is `-Infinity`). -/
inductive JsNum where
  | nan : JsNum
  | num : Rat → JsNum
  | inf : Bool → JsNum
deriving Repr, DecidableEq

/-- Value of a list of decimal digit characters, most significant first. -/
def digitsToNat (ds : List Char) : Nat :=
  ds.foldl (fun n c => 10 * n + (c.toNat - '0'.toNat)) 0

/-- Exponent part of a JavaScript float literal: an optional sign followed by
decimal digits; an exponent with no digits is not part of the literal and
contributes factor 10^0. -/
def parseExp (cs : List Char) : Int :=
  let signed : Bool × List Char :=
    match cs with
    | '-' :: rest => (true, rest)
    | '+' :: rest => (false, rest)
    | _ => (false, cs)
  let ds := signed.2.takeWhile Char.isDigit
  if ds.isEmpty then 0
  else if signed.1 then -(digitsToNat ds : Int) else (digitsToNat ds : Int)

/-- JavaScript `parseFloat` on the character list of a string: skip leading
whitespace, read an optional sign, then the longest prefix that is `Infinity`
or a decimal literal `digits [. digits] [e digits]`; `NaN` when no digit is
found. -/
def parseFloatChars (cs0 : List Char) : JsNum :=
  let cs1 := cs0.dropWhile Char.isWhitespace
  let signed : Bool × List Char :=
    match cs1 with
    | '-' :: rest => (true, rest)
    | '+' :: rest => (false, rest)
    | _ => (false, cs1)
  let neg := signed.1
  let cs := signed.2
  if cs.take 8 = "Infinity".toList then JsNum.inf neg
  else
    let intPart := cs.takeWhile Char.isDigit
    let cs2 := cs.dropWhile Char.isDigit
    let fracPart : List Char × List Char :=
      match cs2 with
      | '.' :: rest => (rest.takeWhile Char.isDigit, rest.dropWhile Char.isDigit)
      | _ => ([], cs2)
    if intPart.isEmpty ∧ fracPart.1.isEmpty then JsNum.nan
    else
      let mantissa : Rat :=
        (digitsToNat (intPart ++ fracPart.1) : Rat) / ((10 : Rat) ^ fracPart.1.length)
      let e : Int :=
        match fracPart.2 with
        | 'e' :: rest => parseExp rest
        | 'E' :: rest => parseExp rest
        | _ => 0
      let m := if neg then -mantissa else mantissa
      JsNum.num (if 0 ≤ e then m * (10 : Rat) ^ e.toNat else m / ((10 : Rat) ^ (-e).toNat))

/-- JavaScript `parseFloat` on a string. -/
def parseFloat (s : String) : JsNum := parseFloatChars s.toList

/-- Product document (productSchema): title/price required, discount default 0,
itemType an enum defaulting to "regular", rating bounded to [0,5] default 0,
images a list of stored paths, createdAt defaulting to `Date.now`.  The
mongoose ObjectId is modelled as a `Nat` drawn from a fresh-id counter. -/
structure Product where
  id : Nat
  title : String
  price : JsNum
  discount : JsNum
  itemType : String
  rating : JsNum
  images : List String
  createdAt : Nat
deriving Repr, DecidableEq

/-- Cart document (cartSchema): a reference to a product, a quantity defaulting
to 1, and an addedAt timestamp defaulting to `Date.now`. -/
structure CartLine where
  id : Nat
  productId : Nat
  quantity : Int
  addedAt : Nat
deriving Repr, DecidableEq

/-- The MongoDB state: the two collections in insertion order plus fresh-id
counters standing in for ObjectId generation. -/
structure DB where
  products : List Product
  cart : List CartLine
  nextProductId : Nat
  nextCartId : Nat
deriving Repr, DecidableEq

/-- JSON response bodies produced by the routes. -/
inductive RespBody where
  | errorMsg : String → RespBody
  | productCreated : Product → RespBody
  | cartAdded : CartLine → RespBody
  | productList : List Product → RespBody
deriving Repr, DecidableEq

/-- An HTTP response: status code and JSON body. -/
structure Resp where
  status : Nat
  body : RespBody
deriving Repr, DecidableEq

/-- One uploaded multipart file as multer sees it. -/
structure FilePart where
  mimetype : String
  originalname : String
  size : Nat
deriving Repr, DecidableEq

/-- The multer fileFilter: accept exactly image/jpeg, image/png, image/jpg. -/
def fileFilterOk (f : FilePart) : Bool :=
  f.mimetype == "image/jpeg" || f.mimetype == "image/png" || f.mimetype == "image/jpg"

/-- An error raised during upload processing: multer's own `MulterError`
(count and size limits) versus the plain `Error` thrown by the fileFilter. -/
inductive UploadErr where
  | multerError : String → UploadErr
  | genericError : String → UploadErr
deriving Repr, DecidableEq

/-- The configured multer fileSize limit, 1024 * 1024 * 5 bytes. -/
def fileSizeLimit : Nat := 1024 * 1024 * 5

/-- multer `upload.array('images', 5)`: files are processed in stream order;
a file beyond the maxCount of 5 raises `MulterError LIMIT_UNEXPECTED_FILE`
("Unexpected field"); the fileFilter rejects a non-image mimetype with a plain
`Error`; a file larger than the fileSize limit raises
`MulterError LIMIT_FILE_SIZE` ("File too large").  The first error aborts the
whole request. -/
def processFiles : List FilePart → Nat → Except UploadErr (List FilePart)
  | [], _ => .ok []
  | f :: fs, accepted =>
    if 5 ≤ accepted then .error (.multerError "Unexpected field")
    else if ¬ fileFilterOk f then
      .error (.genericError "Only JPEG, JPG, and PNG images are allowed!")
    else if fileSizeLimit < f.size then .error (.multerError "File too large")
    else
      match processFiles fs (accepted + 1) with
      | .error e => .error e
      | .ok rest => .ok (f :: rest)

/-- The error-handling middleware at the bottom of the file: a `MulterError`
becomes 400 with "File upload error: " prepended to its message; any other
error becomes 500 with body "Something went wrong!". -/
def uploadErrResp : UploadErr → Resp
  | .multerError msg => ⟨400, .errorMsg ("File upload error: " ++ msg)⟩
  | .genericError _ => ⟨500, .errorMsg "Something went wrong!"⟩

/-- Node `path.extname` restricted to plain file names: the suffix starting at
the last dot, empty when there is no dot or the only dot is the leading one. -/
def lastDotSuffix : List Char → Option (List Char)
  | [] => none
  | c :: cs =>
    match lastDotSuffix cs with
    | some s => some s
    | none => if c = '.' then some (c :: cs) else none

/-- Node `path.extname` of an original file name. -/
def extname (name : String) : String :=
  match name.toList with
  | [] => ""
  | _ :: cs =>
    match lastDotSuffix cs with
    | some s => String.mk s
    | none => ""

/-- The diskStorage filename rule: `Date.now() + path.extname(originalname)`,
stored under the uploads directory, so `file.path` is this string. -/
def uploadPath (now : Nat) (f : FilePart) : String :=
  "uploads/" ++ toString now ++ extname f.originalname

/-- A product-creation request: multipart text fields (each a string when
present) and the attached files. -/
structure ProductReq where
  title : Option String
  price : Option String
  discount : Option String
  itemType : Option String
  rating : Option String
  files : List FilePart
deriving Repr, DecidableEq

/-- JavaScript truthiness of an optional string field: absent (undefined) and
the empty string are falsy, every other string is truthy. -/
def jsTruthy : Option String → Bool
  | none => false
  | some s => ¬ (s == "")

/-- mongoose Number cast at save time: `NaN` fails the cast (CastError), any
finite value and ±Infinity pass. -/
def castOk : JsNum → Bool
  | .nan => false
  | .num _ => true
  | .inf _ => true

/-- The `min: 0` validator on rating, with JavaScript comparison semantics. -/
def ratingMinOk : JsNum → Bool
  | .nan => false
  | .num q => 0 ≤ q
  | .inf neg => ¬ neg

/-- The `max: 5` validator on rating, with JavaScript comparison semantics. -/
def ratingMaxOk : JsNum → Bool
  | .nan => false
  | .num q => q ≤ 5
  | .inf neg => neg

/-- The `enum: ['cold', 'organic', 'regular']` validator on itemType. -/
def itemTypeOk (s : String) : Bool :=
  s == "cold" || s == "organic" || s == "regular"

/-- mongoose document validation run by `save()` for productSchema: required
title (empty string fails the required check on a String path), price/discount/
rating must cast to numbers, itemType must be in the enum, rating within its
bounds. -/
def validProduct (p : Product) : Bool :=
  (¬ (p.title == "")) && castOk p.price && castOk p.discount &&
  itemTypeOk p.itemType && castOk p.rating && ratingMinOk p.rating && ratingMaxOk p.rating

/-- The document built by `new Product(...)` in the POST /api/products handler:
`price: parseFloat(price)`, `discount: discount ? parseFloat(discount) : 0`,
`itemType: itemType || 'regular'`, `rating: rating ? parseFloat(rating) : 0`,
`images: imagePaths`, with the schema defaults filling id and createdAt. -/
def mkProduct (req : ProductReq) (paths : List String) (id now : Nat) : Product :=
  { id := id
    title := req.title.getD ""
    price := parseFloat (req.price.getD "")
    discount := if jsTruthy req.discount then parseFloat (req.discount.getD "") else .num 0
    itemType := if jsTruthy req.itemType then req.itemType.getD "" else "regular"
    rating := if jsTruthy req.rating then parseFloat (req.rating.getD "") else .num 0
    images := paths
    createdAt := now }

/-- POST /api/products: the upload middleware runs first and on failure the
request goes to the error middleware without reaching the handler; then the
handler rejects a falsy title or price with 400, and otherwise saves the new
product, answering 201 on success and 500 when `save()` throws (the handler's
catch block). -/
def postProducts (req : ProductReq) (db : DB) (now : Nat) : DB × Resp :=
  match processFiles req.files 0 with
  | .error e => (db, uploadErrResp e)
  | .ok files =>
    if ¬ (jsTruthy req.title && jsTruthy req.price) then
      (db, ⟨400, .errorMsg "Title and price are required"⟩)
    else
      let p := mkProduct req (files.map (uploadPath now)) db.nextProductId now
      if validProduct p then
        ({ db with products := db.products ++ [p], nextProductId := db.nextProductId + 1 },
         ⟨201, .productCreated p⟩)
      else (db, ⟨500, .errorMsg "Internal server error"⟩)

/-- An add-to-cart request body: productId (an ObjectId, modelled as `Nat`)
and an optional numeric quantity. -/
structure CartReq where
  productId : Option Nat
  quantity : Option Int
deriving Repr, DecidableEq

/-- `quantity || 1`: an absent quantity and the falsy 0 default to 1; every
other number (negative ones included) is used as given. -/
def effQty : Option Int → Int
  | none => 1
  | some q => if q = 0 then 1 else q

/-- POST /api/cart: 400 when productId is falsy, 404 when `findById` finds no
product, otherwise `findOne({productId})` — an existing line gets
`quantity += quantity || 1` and is saved in place (update by id), a missing one
is inserted with `quantity: quantity || 1`; both answer 201. -/
def postCart (req : CartReq) (db : DB) (now : Nat) : DB × Resp :=
  match req.productId with
  | none => (db, ⟨400, .errorMsg "Product ID is required"⟩)
  | some pid =>
    match db.products.find? (fun p => p.id == pid) with
    | none => (db, ⟨404, .errorMsg "Product not found"⟩)
    | some _ =>
      match db.cart.find? (fun c => c.productId == pid) with
      | some item =>
        let item' : CartLine := { item with quantity := item.quantity + effQty req.quantity }
        ({ db with cart := db.cart.map (fun c => if c.id == item'.id then item' else c) },
         ⟨201, .cartAdded item'⟩)
      | none =>
        let item : CartLine :=
          { id := db.nextCartId, productId := pid, quantity := effQty req.quantity,
            addedAt := now }
        ({ db with cart := db.cart ++ [item], nextCartId := db.nextCartId + 1 },
         ⟨201, .cartAdded item⟩)

/-- Run a sequence of POST /api/cart requests, collecting the responses. -/
def runCart : List CartReq → DB → Nat → DB × List Resp
  | [], db, _ => (db, [])
  | r :: rs, db, now =>
    let s := postCart r db now
    let t := runCart rs s.1 now
    (t.1, s.2 :: t.2)

/-- The ordering used by GET /api/products: `sort({createdAt: -1})`. -/
def byRecency (a b : Product) : Prop := b.createdAt ≤ a.createdAt

instance : DecidableRel byRecency := fun a b => Nat.decLe b.createdAt a.createdAt

/-- `Product.find().sort({createdAt: -1})`, modelled as a stable sort of the
collection by descending createdAt. -/
def sortByRecency (ps : List Product) : List Product :=
  List.insertionSort byRecency ps

/-- GET /api/products: 200 with every product, most recent first. -/
def getProducts (db : DB) : DB × Resp :=
  (db, ⟨200, .productList (sortByRecency db.products)⟩)

/-- Sum of the effective quantities of a sequence of requested quantities. -/
def sumEff (qs : List (Option Int)) : Int := (qs.map effQty).sum

/-- A one-product database used by concrete witnesses and counterexamples. -/
def dbOne : DB :=
  ⟨[⟨0, "apple", .num 1, .num 0, "regular", .num 0, [], 0⟩], [], 1, 0⟩

/-- The empty database. -/
def dbEmpty : DB := ⟨[], [], 0, 0⟩

example : castOk (parseFloat "5") = true := by decide
example : parseFloat "abc" = .nan := by decide
example : parseFloat "" = .nan := by decide
example : parseFloat "Infinity" = .inf false := by decide
example : (postCart ⟨some 0, some 0⟩ dbOne 1).1.cart = [⟨0, 0, 1, 1⟩] := by decide

/-! ### Helper lemmas -/

theorem find?_append_of_none {α : Type} (p : α → Bool) (l1 l2 : List α)
    (h : ∀ a ∈ l1, p a = false) : (l1 ++ l2).find? p = l2.find? p := by
  induction l1 with
  | nil => rfl
  | cons a l ih =>
    rw [List.cons_append, List.find?_cons_of_neg _ (by simp [h a (List.mem_cons_self a l)])]
    exact ih (fun x hx => h x (List.mem_cons_of_mem a hx))

theorem map_eq_self_of {α : Type} (l : List α) (f : α → α) (h : ∀ a ∈ l, f a = a) :
    l.map f = l := by
  induction l with
  | nil => rfl
  | cons a l ih =>
    rw [List.map_cons, h a (List.mem_cons_self a l),
      ih (fun x hx => h x (List.mem_cons_of_mem a hx))]

theorem postProducts_upload_error (req : ProductReq) (db : DB) (now : Nat) (e : UploadErr)
    (h : processFiles req.files 0 = .error e) :
    postProducts req db now = (db, uploadErrResp e) := by
  simp [postProducts, h]

theorem processFiles_error_shift (rest : List FilePart) (e : UploadErr) :
    ∀ (pre : List FilePart) (k : Nat),
      (∀ g ∈ pre, fileFilterOk g ∧ g.size ≤ fileSizeLimit) →
      k + pre.length ≤ 5 →
      processFiles rest (k + pre.length) = .error e →
      processFiles (pre ++ rest) k = .error e
  | [], k, _, _, h => by simpa using h
  | g :: gs, k, hgood, hk, h => by
    have hg := hgood g (List.mem_cons_self g gs)
    have hk5 : ¬ (5 ≤ k) := by simp [List.length_cons] at hk; omega
    have hsz : ¬ (fileSizeLimit < g.size) := Nat.not_lt.mpr hg.2
    have hrec : processFiles (gs ++ rest) (k + 1) = .error e := by
      apply processFiles_error_shift rest e gs (k + 1)
        (fun x hx => hgood x (List.mem_cons_of_mem g hx))
      · simp [List.length_cons] at hk; omega
      · have hlen : k + 1 + gs.length = k + (g :: gs).length := by
          simp [List.length_cons]; omega
        rw [hlen]; exact h
    rw [List.cons_append]
    unfold processFiles
    rw [if_neg hk5, if_neg (by simp [hg.1]), if_neg hsz, hrec]

theorem processFiles_mime_error (pre : List FilePart) (f : FilePart) (post : List FilePart)
    (hpre : ∀ g ∈ pre, fileFilterOk g ∧ g.size ≤ fileSizeLimit)
    (hlen : pre.length < 5) (hf : fileFilterOk f = false) :
    processFiles (pre ++ f :: post) 0 =
      .error (.genericError "Only JPEG, JPG, and PNG images are allowed!") := by
  apply processFiles_error_shift _ _ pre 0 hpre (by omega)
  have h5 : ¬ (5 ≤ 0 + pre.length) := by omega
  unfold processFiles
  rw [if_neg h5, if_pos (by simp [hf])]

theorem processFiles_size_error (pre : List FilePart) (f : FilePart) (post : List FilePart)
    (hpre : ∀ g ∈ pre, fileFilterOk g ∧ g.size ≤ fileSizeLimit)
    (hlen : pre.length < 5) (hf : fileFilterOk f = true) (hsz : fileSizeLimit < f.size) :
    processFiles (pre ++ f :: post) 0 = .error (.multerError "File too large") := by
  apply processFiles_error_shift _ _ pre 0 hpre (by omega)
  have h5 : ¬ (5 ≤ 0 + pre.length) := by omega
  unfold processFiles
  rw [if_neg h5, if_neg (by simp [hf]), if_pos hsz]

theorem processFiles_count_error (files : List FilePart)
    (hgood : ∀ g ∈ files, fileFilterOk g ∧ g.size ≤ fileSizeLimit)
    (hlen : 5 < files.length) :
    processFiles files 0 = .error (.multerError "Unexpected field") := by
  have hsplit : files = files.take 5 ++ files.drop 5 := (List.take_append_drop 5 files).symm
  rw [hsplit]
  apply processFiles_error_shift _ _ (files.take 5) 0
    (fun g hg => hgood g (List.take_subset 5 files hg))
    (by simp only [List.length_take]; omega)
  have h5 : 0 + (files.take 5).length = 5 := by simp only [List.length_take]; omega
  rw [h5]
  cases hd : files.drop 5 with
  | nil =>
    exfalso
    have := congrArg List.length hd
    simp [List.length_drop] at this
    omega
  | cons d ds =>
    unfold processFiles
    rw [if_pos (by omega)]

/-! ### Claims C2, C3, C7, C10 -/

/-- C2: a POST /api/cart request whose productId does not resolve to an
existing Product gets 404 with body error "Product not found", and the state
(in particular the cart collection) is unchanged. -/
theorem cart_unknown_product_404 (req : CartReq) (db : DB) (now : Nat) (pid : Nat)
    (hpid : req.productId = some pid)
    (habs : ∀ p ∈ db.products, p.id ≠ pid) :
    postCart req db now = (db, ⟨404, .errorMsg "Product not found"⟩) := by
  have hfind : db.products.find? (fun p => p.id == pid) = none :=
    List.find?_eq_none.mpr (fun p hp => by simp [habs p hp])
  simp [postCart, hpid, hfind]

/-- Witness for C2 at a concrete unknown productId. -/
theorem cart_unknown_product_404_witness :
    postCart ⟨some 9, some 2⟩ dbOne 1 = (dbOne, ⟨404, .errorMsg "Product not found"⟩) :=
  cart_unknown_product_404 ⟨some 9, some 2⟩ dbOne 1 9 rfl (by decide)

/-- C3 counterexample: a request missing `title` but carrying an oversized file
is answered by the upload middleware (400 "File upload error: File too large"),
not with the body "Title and price are required" the claim demands. -/
theorem product_missing_title_upload_cx :
    postProducts ⟨none, some "5", none, none, none, [⟨"image/png", "a.png", 6000000⟩]⟩ dbEmpty 7
      = (dbEmpty, ⟨400, .errorMsg "File upload error: File too large"⟩) ∧
    RespBody.errorMsg "File upload error: File too large"
      ≠ RespBody.errorMsg "Title and price are required" := by
  exact ⟨by decide, by decide⟩

/-- C3 (amended): a product-creation request whose upload stage succeeds and
whose body is missing title or price gets 400 with exactly
error "Title and price are required", and the state is unchanged (no Product
is persisted). -/
theorem product_missing_fields_400 (req : ProductReq) (db : DB) (now : Nat)
    (fs : List FilePart)
    (hup : processFiles req.files 0 = .ok fs)
    (hmiss : req.title = none ∨ req.price = none) :
    postProducts req db now = (db, ⟨400, .errorMsg "Title and price are required"⟩) := by
  have ht : (jsTruthy req.title && jsTruthy req.price) = false := by
    rcases hmiss with h | h <;> simp [jsTruthy, h]
  simp [postProducts, hup, ht]

/-- Witness for C3 (amended) at a concrete request with no files and no title. -/
theorem product_missing_fields_400_witness :
    postProducts ⟨none, some "5", none, none, none, []⟩ dbEmpty 7
      = (dbEmpty, ⟨400, .errorMsg "Title and price are required"⟩) :=
  product_missing_fields_400 ⟨none, some "5", none, none, none, []⟩ dbEmpty 7 []
    rfl (Or.inl rfl)

/-- C7: a product-creation request whose upload stage is rejected (over-count,
bad mimetype, or oversized file all surface as an upload error) leaves the
whole state unchanged: no Product record is created even when title and price
are valid. -/
theorem upload_rejected_no_product (req : ProductReq) (db : DB) (now : Nat)
    (h : ∃ e, processFiles req.files 0 = .error e) :
    (postProducts req db now).1 = db := by
  obtain ⟨e, he⟩ := h
  rw [postProducts_upload_error req db now e he]

/-- Witness for C7: a 6MB PNG attached to an otherwise-valid product body. -/
theorem upload_rejected_no_product_witness :
    (postProducts ⟨some "apple", some "5", none, none, none,
        [⟨"image/png", "big.png", 6291456⟩]⟩ dbOne 3).1 = dbOne :=
  upload_rejected_no_product _ _ _ ⟨.multerError "File too large", rfl⟩

/-- C10: POST /api/cart never changes the products collection (nor the product
id counter), and POST /api/products never changes the cart collection (nor the
cart id counter), whether they succeed or fail. -/
theorem routes_frame (creq : CartReq) (preq : ProductReq) (db : DB) (now : Nat) :
    (postCart creq db now).1.products = db.products ∧
    (postCart creq db now).1.nextProductId = db.nextProductId ∧
    (postProducts preq db now).1.cart = db.cart ∧
    (postProducts preq db now).1.nextCartId = db.nextCartId := by
  refine ⟨?_, ?_, ?_, ?_⟩
  · unfold postCart; split
    · rfl
    · split
      · rfl
      · split <;> rfl
  · unfold postCart; split
    · rfl
    · split
      · rfl
      · split <;> rfl
  · unfold postProducts; split
    · rfl
    · split
      · rfl
      · dsimp only
        split <;> rfl
  · unfold postProducts; split
    · rfl
    · split
      · rfl
      · dsimp only
        split <;> rfl

/-! ### Claim C4 -/

instance : IsTrans Product byRecency :=
  ⟨fun _ _ _ h1 h2 => Nat.le_trans h2 h1⟩

instance : IsTotal Product byRecency :=
  ⟨fun a b => Nat.le_total b.createdAt a.createdAt⟩

/-- C4: GET /api/products answers 200 with a list that is a permutation of the
whole products collection and is sorted by `createdAt` descending, for every
state of the store (hence every insertion order); the state is unchanged. -/
theorem getProducts_recency (db : DB) :
    getProducts db = (db, ⟨200, .productList (sortByRecency db.products)⟩) ∧
    List.Perm (sortByRecency db.products) db.products ∧
    List.Sorted byRecency (sortByRecency db.products) :=
  ⟨rfl, List.perm_insertionSort byRecency db.products,
    List.sorted_insertionSort byRecency db.products⟩

/-! ### Claim C5 -/

/-- C5: every valid product-creation payload — upload stage passed, truthy
title, price that parses to a number, and each present optional field itself
valid — creates exactly the document the handler builds: it is appended to the
store under the fresh counter id (distinct from every stored product's id),
its createdAt is the current time, and each omitted optional field carries its
documented default: discount 0, itemType "regular", rating 0, images []; the
response is 201 with the created product. -/
theorem product_create_defaults (req : ProductReq) (db : DB) (now : Nat)
    (fs : List FilePart)
    (hup : processFiles req.files 0 = .ok fs)
    (ht : jsTruthy req.title = true)
    (hp : jsTruthy req.price = true)
    (hprice : castOk (parseFloat (req.price.getD "")) = true)
    (hdisc : jsTruthy req.discount = true →
      castOk (parseFloat (req.discount.getD "")) = true)
    (htype : jsTruthy req.itemType = true → itemTypeOk (req.itemType.getD "") = true)
    (hrate : jsTruthy req.rating = true →
      castOk (parseFloat (req.rating.getD "")) = true ∧
      ratingMinOk (parseFloat (req.rating.getD "")) = true ∧
      ratingMaxOk (parseFloat (req.rating.getD "")) = true)
    (hfresh : ∀ q ∈ db.products, q.id < db.nextProductId) :
    postProducts req db now =
      ({ db with
          products := db.products ++
            [mkProduct req (fs.map (uploadPath now)) db.nextProductId now],
          nextProductId := db.nextProductId + 1 },
       ⟨201, .productCreated (mkProduct req (fs.map (uploadPath now)) db.nextProductId now)⟩) ∧
    (mkProduct req (fs.map (uploadPath now)) db.nextProductId now).createdAt = now ∧
    (∀ q ∈ db.products,
      q.id ≠ (mkProduct req (fs.map (uploadPath now)) db.nextProductId now).id) ∧
    (jsTruthy req.discount = false →
      (mkProduct req (fs.map (uploadPath now)) db.nextProductId now).discount = .num 0) ∧
    (jsTruthy req.itemType = false →
      (mkProduct req (fs.map (uploadPath now)) db.nextProductId now).itemType = "regular") ∧
    (jsTruthy req.rating = false →
      (mkProduct req (fs.map (uploadPath now)) db.nextProductId now).rating = .num 0) ∧
    (req.files = [] →
      (mkProduct req (fs.map (uploadPath now)) db.nextProductId now).images = []) := by
  have htitle : (req.title.getD "" == "") = false := by
    cases hto : req.title with
    | none => rw [hto] at ht; simp [jsTruthy] at ht
    | some s =>
      rw [hto] at ht
      simp only [jsTruthy] at ht
      simpa using ht
  have hv : validProduct (mkProduct req (fs.map (uploadPath now)) db.nextProductId now)
      = true := by
    simp only [validProduct, mkProduct, Bool.and_eq_true]
    refine ⟨⟨⟨⟨⟨⟨?_, ?_⟩, ?_⟩, ?_⟩, ?_⟩, ?_⟩, ?_⟩
    · simp [htitle]
    · exact hprice
    · by_cases hd : jsTruthy req.discount = true
      · simpa [hd] using hdisc hd
      · simp [hd, castOk]
    · by_cases hty : jsTruthy req.itemType = true
      · simpa [hty] using htype hty
      · simp [hty, itemTypeOk]
    · by_cases hr : jsTruthy req.rating = true
      · simpa [hr] using (hrate hr).1
      · simp [hr, castOk]
    · by_cases hr : jsTruthy req.rating = true
      · simpa [hr] using (hrate hr).2.1
      · simp [hr, ratingMinOk]
    · by_cases hr : jsTruthy req.rating = true
      · simpa [hr] using (hrate hr).2.2
      · norm_num [hr, ratingMaxOk]
  refine ⟨by simp [postProducts, hup, ht, hp, hv], rfl,
    fun q hq => Nat.ne_of_lt (hfresh q hq), ?_, ?_, ?_, ?_⟩
  · intro h; simp [mkProduct, h]
  · intro h; simp [mkProduct, h]
  · intro h; simp [mkProduct, h]
  · intro h
    have hfs : fs = [] := by
      rw [h] at hup
      simpa [processFiles] using hup.symm
    simp [mkProduct, hfs]

/-- Witness for C5 at a concrete valid payload that has itemType present while
discount, rating and files stay omitted and get their defaults. -/
theorem product_create_defaults_witness :
    postProducts ⟨some "apple", some "5", none, some "cold", none, []⟩ dbEmpty 3 =
      ({ dbEmpty with
          products := dbEmpty.products ++
            [mkProduct ⟨some "apple", some "5", none, some "cold", none, []⟩
              (([] : List FilePart).map (uploadPath 3)) dbEmpty.nextProductId 3],
          nextProductId := dbEmpty.nextProductId + 1 },
       ⟨201, .productCreated
          (mkProduct ⟨some "apple", some "5", none, some "cold", none, []⟩
            (([] : List FilePart).map (uploadPath 3)) dbEmpty.nextProductId 3)⟩) ∧
    (mkProduct ⟨some "apple", some "5", none, some "cold", none, []⟩
        (([] : List FilePart).map (uploadPath 3)) dbEmpty.nextProductId 3).discount = .num 0 ∧
    (mkProduct ⟨some "apple", some "5", none, some "cold", none, []⟩
        (([] : List FilePart).map (uploadPath 3)) dbEmpty.nextProductId 3).rating = .num 0 ∧
    (mkProduct ⟨some "apple", some "5", none, some "cold", none, []⟩
        (([] : List FilePart).map (uploadPath 3)) dbEmpty.nextProductId 3).images = [] := by
  have h := product_create_defaults ⟨some "apple", some "5", none, some "cold", none, []⟩
    dbEmpty 3 [] rfl (by decide) (by decide) (by decide)
    (fun hd => absurd hd (by decide))
    (fun _ => by decide)
    (fun hr => absurd hr (by decide))
    (by decide)
  exact ⟨h.1, h.2.2.2.1 rfl, h.2.2.2.2.2.1 rfl, h.2.2.2.2.2.2 rfl⟩

/-! ### Claim C9 -/

/-- C9 counterexample: a present but non-numeric price ("abc") does not get a
400 validation response: `parseFloat` yields NaN, the mongoose cast fails at
save time, and the handler's catch answers 500 "Internal server error" (no
product is persisted, the state is unchanged). -/
theorem product_nan_price_cx :
    postProducts ⟨some "apple", some "abc", none, none, none, []⟩ dbEmpty 2
      = (dbEmpty, ⟨500, .errorMsg "Internal server error"⟩) ∧
    (postProducts ⟨some "apple", some "abc", none, none, none, []⟩ dbEmpty 2).2.status ≠ 400 :=
  ⟨by decide, by decide⟩

/-- C9 (amended): when a present numeric field (price, discount or rating)
does not parse to a number, `save()` throws, the response is
500 "Internal server error" (not a 400 validation response), and the state is
unchanged: no Product with a malformed numeric value is ever persisted. -/
theorem product_malformed_number_500 (req : ProductReq) (db : DB) (now : Nat)
    (fs : List FilePart)
    (hup : processFiles req.files 0 = .ok fs)
    (ht : jsTruthy req.title = true) (hp : jsTruthy req.price = true)
    (hbad : parseFloat (req.price.getD "") = .nan
      ∨ (jsTruthy req.discount = true ∧ parseFloat (req.discount.getD "") = .nan)
      ∨ (jsTruthy req.rating = true ∧ parseFloat (req.rating.getD "") = .nan)) :
    postProducts req db now = (db, ⟨500, .errorMsg "Internal server error"⟩) := by
  have hinvalid : validProduct
      (mkProduct req (fs.map (uploadPath now)) db.nextProductId now) = false := by
    rcases hbad with h | ⟨hd, h⟩ | ⟨hr, h⟩
    · simp [validProduct, mkProduct, h, castOk]
    · simp [validProduct, mkProduct, hd, h, castOk]
    · simp [validProduct, mkProduct, hr, h, castOk]
  simp [postProducts, hup, ht, hp, hinvalid]

/-- Witness for C9 (amended) at a concrete malformed discount. -/
theorem product_malformed_number_500_witness :
    postProducts ⟨some "apple", some "5", some "cheap", none, none, []⟩ dbEmpty 2
      = (dbEmpty, ⟨500, .errorMsg "Internal server error"⟩) :=
  product_malformed_number_500 ⟨some "apple", some "5", some "cheap", none, none, []⟩
    dbEmpty 2 [] rfl (by decide) (by decide) (Or.inr (Or.inl ⟨by decide, by decide⟩))

/-! ### Claim C6 -/

/-- C6 counterexample: a file with a non-image mime type does not get
400 with a "File upload error: " body — the fileFilter throws a plain `Error`
(not a `MulterError`), so the error middleware answers
500 "Something went wrong!". -/
theorem upload_bad_mime_cx :
    postProducts ⟨some "apple", some "5", none, none, none,
        [⟨"text/plain", "a.txt", 10⟩]⟩ dbEmpty 4
      = (dbEmpty, ⟨500, .errorMsg "Something went wrong!"⟩) ∧
    (postProducts ⟨some "apple", some "5", none, none, none,
        [⟨"text/plain", "a.txt", 10⟩]⟩ dbEmpty 4).2.status ≠ 400 :=
  ⟨by decide, by decide⟩

/-- C6 (amended): an upload failure short-circuits the request with the error
middleware's translation of the raised error: a size violation (file over
5,242,880 bytes) or a count violation (more than 5 files) raises a
`MulterError` and yields 400 with error "File upload error: " ++ detail,
while an unsupported mime type raises a plain `Error` in the fileFilter and
yields 500 with error "Something went wrong!"; the state is unchanged in every
case. -/
theorem upload_error_responses (req : ProductReq) (db : DB) (now : Nat) :
    (∀ e, processFiles req.files 0 = .error e →
      postProducts req db now = (db, uploadErrResp e)) ∧
    (∀ pre f post, req.files = pre ++ f :: post →
      (∀ g ∈ pre, fileFilterOk g ∧ g.size ≤ fileSizeLimit) → pre.length < 5 →
      fileFilterOk f = false →
      postProducts req db now = (db, ⟨500, .errorMsg "Something went wrong!"⟩)) ∧
    (∀ pre f post, req.files = pre ++ f :: post →
      (∀ g ∈ pre, fileFilterOk g ∧ g.size ≤ fileSizeLimit) → pre.length < 5 →
      fileFilterOk f = true → fileSizeLimit < f.size →
      postProducts req db now = (db, ⟨400, .errorMsg "File upload error: File too large"⟩)) ∧
    ((∀ g ∈ req.files, fileFilterOk g ∧ g.size ≤ fileSizeLimit) → 5 < req.files.length →
      postProducts req db now = (db, ⟨400, .errorMsg "File upload error: Unexpected field"⟩)) := by
  refine ⟨fun e he => postProducts_upload_error req db now e he, ?_, ?_, ?_⟩
  · intro pre f post hfiles hpre hlen hf
    exact postProducts_upload_error req db now _
      (by rw [hfiles]; exact processFiles_mime_error pre f post hpre hlen hf)
  · intro pre f post hfiles hpre hlen hf hsz
    exact postProducts_upload_error req db now _
      (by rw [hfiles]; exact processFiles_size_error pre f post hpre hlen hf hsz)
  · intro hgood hlen
    exact postProducts_upload_error req db now _
      (processFiles_count_error req.files hgood hlen)

/-- Witness for C6 (amended): a single oversized PNG yields the 400 multer
response. -/
theorem upload_error_responses_witness :
    postProducts ⟨some "apple", some "5", none, none, none,
        [⟨"image/png", "big.png", 6291456⟩]⟩ dbOne 3
      = (dbOne, ⟨400, .errorMsg "File upload error: File too large"⟩) :=
  (upload_error_responses ⟨some "apple", some "5", none, none, none,
      [⟨"image/png", "big.png", 6291456⟩]⟩ dbOne 3).2.2.1
    [] ⟨"image/png", "big.png", 6291456⟩ [] rfl (by decide) (by decide) (by decide) (by decide)

/-! ### Claim C1 -/

theorem sumEff_cons (q : Option Int) (qs : List (Option Int)) :
    sumEff (q :: qs) = effQty q + sumEff qs := by
  simp [sumEff]

theorem postCart_step (prods : List Product) (cart0 : List CartLine)
    (npid ncid pid lid : Nat) (s : Int) (t0 now : Nat) (q : Option Int)
    (hprod : (List.find? (fun p => p.id == pid) prods).isSome = true)
    (h0 : ∀ c ∈ cart0, c.productId ≠ pid ∧ c.id ≠ lid) :
    postCart ⟨some pid, q⟩ ⟨prods, cart0 ++ [⟨lid, pid, s, t0⟩], npid, ncid⟩ now =
      (⟨prods, cart0 ++ [⟨lid, pid, s + effQty q, t0⟩], npid, ncid⟩,
       ⟨201, .cartAdded ⟨lid, pid, s + effQty q, t0⟩⟩) := by
  obtain ⟨p, hp⟩ := Option.isSome_iff_exists.mp hprod
  have hfind : List.find? (fun c => c.productId == pid)
      (cart0 ++ [(⟨lid, pid, s, t0⟩ : CartLine)]) = some ⟨lid, pid, s, t0⟩ := by
    rw [find?_append_of_none _ _ _ (fun c hc => by simp [(h0 c hc).1])]
    simp [List.find?]
  simp [postCart, hp, hfind]
  exact map_eq_self_of _ _ (fun c hc => by simp [(h0 c hc).2])

theorem runCart_fixed (prods : List Product) (cart0 : List CartLine)
    (npid pid lid : Nat) (t0 now : Nat)
    (hprod : (List.find? (fun p => p.id == pid) prods).isSome = true)
    (h0 : ∀ c ∈ cart0, c.productId ≠ pid ∧ c.id ≠ lid) :
    ∀ (qs : List (Option Int)) (s : Int) (ncid : Nat),
      (runCart (qs.map (fun q => ⟨some pid, q⟩))
          ⟨prods, cart0 ++ [⟨lid, pid, s, t0⟩], npid, ncid⟩ now).1
        = ⟨prods, cart0 ++ [⟨lid, pid, s + sumEff qs, t0⟩], npid, ncid⟩ ∧
      ∀ r ∈ (runCart (qs.map (fun q => ⟨some pid, q⟩))
          ⟨prods, cart0 ++ [⟨lid, pid, s, t0⟩], npid, ncid⟩ now).2, r.status = 201
  | [], s, ncid => by simp [runCart, sumEff]
  | q :: qs, s, ncid => by
    have hstep := postCart_step prods cart0 npid ncid pid lid s t0 now q hprod h0
    have ih := runCart_fixed prods cart0 npid pid lid t0 now hprod h0 qs (s + effQty q) ncid
    constructor
    · simp only [List.map_cons, runCart, hstep]
      rw [ih.1, Int.add_assoc, ← sumEff_cons]
    · intro r hr
      simp only [List.map_cons, runCart, hstep] at hr
      rcases List.mem_cons.mp hr with h | h
      · rw [h]
      · exact ih.2 r h

/-- C1 counterexample: a single successful add-to-cart call with explicit
quantity 0 yields a CartLine with quantity 1 (the falsy 0 defaults to 1), not
quantity 0 = sum(q1) as the claim demands. -/
theorem cart_zero_quantity_cx :
    (postCart ⟨some 0, some 0⟩ dbOne 1).2.status = 201 ∧
    ((postCart ⟨some 0, some 0⟩ dbOne 1).1.cart.filter (fun c => c.productId == 0)).map
      (fun c => c.quantity) = [1] ∧
    ((postCart ⟨some 0, some 0⟩ dbOne 1).1.cart.filter (fun c => c.productId == 0)).map
      (fun c => c.quantity) ≠ [0] :=
  ⟨by decide, by decide, by decide⟩

/-- C1 (amended): for every nonempty sequence of add-to-cart calls on the same
existing productId, starting from a state with no CartLine for that product,
all calls succeed (201) and afterwards exactly one CartLine exists for that
product, with quantity the sum of the effective quantities, where an omitted
or zero quantity counts as 1 (`quantity || 1`). -/
theorem cart_adds_accumulate (db : DB) (pid : Nat) (qs : List (Option Int)) (now : Nat)
    (hprod : (List.find? (fun p => p.id == pid) db.products).isSome = true)
    (hnone : ∀ c ∈ db.cart, c.productId ≠ pid)
    (hids : ∀ c ∈ db.cart, c.id < db.nextCartId)
    (hne : qs ≠ []) :
    ((runCart (qs.map (fun q => ⟨some pid, q⟩)) db now).1.cart.filter
        (fun c => c.productId == pid)).map (fun c => c.quantity) = [sumEff qs] ∧
    ∀ r ∈ (runCart (qs.map (fun q => ⟨some pid, q⟩)) db now).2, r.status = 201 := by
  match qs, hne with
  | q :: qs, _ =>
    obtain ⟨p, hp⟩ := Option.isSome_iff_exists.mp hprod
    have hfind0 : List.find? (fun c => c.productId == pid) db.cart = none :=
      List.find?_eq_none.mpr (fun c hc => by simp [hnone c hc])
    have hstep : postCart ⟨some pid, q⟩ db now =
        (⟨db.products, db.cart ++ [⟨db.nextCartId, pid, effQty q, now⟩],
          db.nextProductId, db.nextCartId + 1⟩,
         ⟨201, .cartAdded ⟨db.nextCartId, pid, effQty q, now⟩⟩) := by
      simp [postCart, hp, hfind0]
    have h0 : ∀ c ∈ db.cart, c.productId ≠ pid ∧ c.id ≠ db.nextCartId :=
      fun c hc => ⟨hnone c hc, Nat.ne_of_lt (hids c hc)⟩
    have hrun := runCart_fixed db.products db.cart db.nextProductId pid db.nextCartId now now
      hprod h0 qs (effQty q) (db.nextCartId + 1)
    constructor
    · simp only [List.map_cons, runCart, hstep]
      rw [hrun.1]
      rw [List.filter_append]
      have hnil : db.cart.filter (fun c => c.productId == pid) = [] :=
        List.filter_eq_nil_iff.mpr (fun c hc => by simp [hnone c hc])
      rw [hnil]
      simp [sumEff_cons]
    · intro r hr
      simp only [List.map_cons, runCart, hstep] at hr
      rcases List.mem_cons.mp hr with h | h
      · rw [h]
      · exact hrun.2 r h

/-- Witness for C1 (amended): quantities 3, omitted, 2 accumulate to one line
of quantity 6. -/
theorem cart_adds_accumulate_witness :
    ((runCart ([some 3, none, some 2].map (fun q => ⟨some 0, q⟩)) dbOne 5).1.cart.filter
        (fun c => c.productId == 0)).map (fun c => c.quantity)
      = [sumEff [some 3, none, some 2]] ∧
    ∀ r ∈ (runCart ([some 3, none, some 2].map (fun q => ⟨some 0, q⟩)) dbOne 5).2,
      r.status = 201 :=
  cart_adds_accumulate dbOne 0 [some 3, none, some 2] 5 (by decide) (by decide)
    (by decide) (by decide)

/-! ### Claim C8 -/

theorem effQty_ge_one (o : Option Int) (h : ∀ q, o = some q → 0 ≤ q) : 1 ≤ effQty o := by
  cases o with
  | none => simp [effQty]
  | some q =>
    have hq := h q rfl
    by_cases h0 : q = 0
    · simp [effQty, h0]
    · simp [effQty, h0]; omega

theorem postCart_preserves_pos (r : CartReq) (db : DB) (now : Nat)
    (hq : ∀ q, r.quantity = some q → 0 ≤ q)
    (hinit : ∀ c ∈ db.cart, 0 < c.quantity) :
    ∀ c ∈ (postCart r db now).1.cart, 0 < c.quantity := by
  have heff : 1 ≤ effQty r.quantity := effQty_ge_one _ hq
  unfold postCart
  rcases hpid : r.productId with _ | pid
  · exact hinit
  · cases hfp : List.find? (fun p => p.id == pid) db.products with
    | none => simp only [hfp]; exact hinit
    | some p =>
      simp only [hfp]
      cases hfc : List.find? (fun c => c.productId == pid) db.cart with
      | none =>
        simp only [hfc]
        intro c hc
        rcases List.mem_append.mp hc with h | h
        · exact hinit c h
        · have hce : c = ⟨db.nextCartId, pid, effQty r.quantity, now⟩ := by simpa using h
          rw [hce]
          show (0 : Int) < effQty r.quantity
          omega
      | some item =>
        simp only [hfc]
        intro c hc
        dsimp only at hc
        rcases List.mem_map.mp hc with ⟨a, ha, hfa⟩
        rw [← hfa]
        by_cases hid : (a.id == item.id) = true
        · have hpos := hinit item (List.mem_of_find?_eq_some hfc)
          simp only [hid, if_true]
          show (0 : Int) < item.quantity + effQty r.quantity
          omega
        · simp only [hid, if_false]
          exact hinit a ha

/-- C8 counterexample: a successful add-to-cart with quantity -2 persists a
CartLine with quantity -2 ≤ 0 (only falsy quantities are replaced by 1;
negative ones are stored as given). -/
theorem cart_negative_quantity_cx :
    (postCart ⟨some 0, some (-2)⟩ dbOne 1).2.status = 201 ∧
    ∃ c ∈ (postCart ⟨some 0, some (-2)⟩ dbOne 1).1.cart, c.quantity ≤ 0 :=
  ⟨by decide, by decide⟩

/-- C8 (amended): as long as every request's quantity is omitted, zero or
positive, every stored CartLine keeps a positive quantity, for any sequence of
add-to-cart requests from a state whose cart lines are all positive (the empty
cart included); a negative requested quantity, however, is stored as given and
can break the invariant. -/
theorem cart_quantities_positive : ∀ (reqs : List CartReq) (db : DB) (now : Nat),
    (∀ r ∈ reqs, ∀ q, r.quantity = some q → 0 ≤ q) →
    (∀ c ∈ db.cart, 0 < c.quantity) →
    ∀ c ∈ (runCart reqs db now).1.cart, 0 < c.quantity
  | [], db, now, _, hinit => by simpa [runCart] using hinit
  | r :: rs, db, now, hreq, hinit => by
    have h1 := postCart_preserves_pos r db now (hreq r (List.mem_cons_self r rs)) hinit
    have h2 := cart_quantities_positive rs (postCart r db now).1 now
      (fun x hx => hreq x (List.mem_cons_of_mem r hx)) h1
    simpa [runCart] using h2

/-- Witness for C8 (amended) on a concrete request sequence with zero and
omitted quantities. -/
theorem cart_quantities_positive_witness :
    (⟨0, 0, 2, 2⟩ : CartLine) ∈
      (runCart [⟨some 0, some 0⟩, ⟨some 0, none⟩] dbOne 2).1.cart ∧
    0 < (⟨0, 0, 2, 2⟩ : CartLine).quantity :=
  ⟨by decide,
   cart_quantities_positive [⟨some 0, some 0⟩, ⟨some 0, none⟩] dbOne 2
     (by intro r hr q hq; fin_cases hr <;> simp_all) (by decide) ⟨0, 0, 2, 2⟩ (by decide)⟩
